import Mathlib

/-!
# Verification of `scripts/experiments.py` (LearnLib experiments runner)

This file is a shallow embedding of the sweep-runner script
`scripts/experiments.py` together with theorems settling the behavioural
claims about it.

The script is executed by the CPython interpreter, so the embedding models
the *dynamic* semantics of the statements as written, with Python's runtime
errors made explicit as values of type `PyErr`:

* `list.extend` is a method of arity one; the script calls it with two
  arguments (`command.extend(["-f"], framework)`, lines 33-39), which is a
  `TypeError` at call time.
* values produced by `json.loads` are plain dicts/lists/strings/numbers/
  booleans/None; none of them has an attribute named `config` or `result`,
  so the attribute accesses of lines 48-58 are `AttributeError`s.
* `run` is defined with five parameters (line 24) but invoked with six
  arguments (lines 72-73), a `TypeError` raised at the call site before the
  body runs.
* line 58 of the source (`outInstance.result.symbolCount].append(...)`)
  contains a stray closing bracket.  CPython compiles a whole module
  before executing any statement of it, so the script as shipped fails at
  LOAD time with `SyntaxError`, prior to argparse, the constants and the
  loop; this load outcome is modelled by `moduleLoad` through an
  executable bracket-balance check on the line's verbatim text.  The
  statement-level definitions below describe the *repaired* module (line
  58 read as its evidently intended append): every error they exhibit
  holds a fortiori of the unloadable original, and no theorem asserts a
  successful completion of the script as written.
* the sweep loop (lines 63-73) reads the module constants `frameworks`,
  `noises`, `noiseLevels`, `minmaxs` and the name `targets`; `targets` is
  never assigned anywhere in the script (see `moduleGlobals` and
  `lookupGlobal`: evaluating it at line 68 raises `NameError` whenever the
  `minmaxs` loop reaches it).  The loop is embedded parameterised over all
  five collections, the way the spec and the claims quantify over them;
  the unbound name is one more independently fatal slip recorded alongside
  the arity errors, and no theorem about a successful outcome rests on the
  parameterisation.

Side effects are recorded in an event trace: `Event.spawn` for each
subprocess invocation, `Event.tick` for each progress tick, and
`Event.barInit` for each construction of a progress indicator.  The monad
is `ExceptT PyErr` over a state monad carrying the trace, so the trace
accumulated before an uncaught error is preserved.

`json.loads` (a standard-library black box) is a parameter `loads` of the
functions that use it, and the outcome of each subprocess invocation is a
parameter `oracle : Nat → CompletedProcess` giving the `i`-th invocation's
captured exit code and standard output.
-/

/-- Python runtime errors that the statements of the script can raise. -/
inductive PyErr where
  /-- `TypeError`, e.g. a call with the wrong number of arguments. -/
  | typeError (msg : String)
  /-- `AttributeError`: attribute lookup/assignment on an object lacking it. -/
  | attributeError (attr : String)
  /-- `IndexError`: sequence index out of range, e.g. `[] [-1]`. -/
  | indexError
  /-- `json.JSONDecodeError` from `json.loads`. -/
  | jsonDecodeError
  /-- `SystemExit` as raised by `argparse` on invalid command lines. -/
  | systemExit
  /-- `SyntaxError` raised by CPython's compilation of the module, before
  any statement executes. -/
  | syntaxError
  /-- `NameError`: evaluation of a name bound nowhere in scope. -/
  | nameError (name : String)
  deriving Repr, DecidableEq

/-- Observable side effects of the script, in order of occurrence. -/
inductive Event where
  /-- One subprocess invocation (`subprocess.run`, line 43) with its command line. -/
  | spawn (command : List String)
  /-- One progress tick (`bar()`, line 44). -/
  | tick
  /-- Construction of a progress indicator (`alive_bar(...)`, line 71) with its total. -/
  | barInit (total : Nat)
  deriving Repr, DecidableEq

/-- The monad of the embedding: Python exceptions over an event trace. -/
abbrev PyM (α : Type) := ExceptT PyErr (StateM (List Event)) α

/-- Record one event in the trace. -/
def emit (e : Event) : PyM Unit :=
  modify (fun t => t ++ [e])

/-- Run a `PyM` computation from the empty trace, returning the outcome and
the full event trace (preserved also when the outcome is an error). -/
def runEvents {α : Type} (m : PyM α) : Except PyErr α × List Event :=
  (ExceptT.run m).run []

/-- Number of subprocess invocations recorded in a trace. -/
def spawnCount (t : List Event) : Nat :=
  (t.filter fun e => match e with | Event.spawn _ => true | _ => false).length

/-- Number of progress ticks recorded in a trace. -/
def tickCount (t : List Event) : Nat :=
  (t.filter fun e => match e with | Event.tick => true | _ => false).length

/-- Number of progress-indicator constructions recorded in a trace. -/
def barInitCount (t : List Event) : Nat :=
  (t.filter fun e => match e with | Event.barInit _ => true | _ => false).length

/-- Line 58 of the source, verbatim:
a complete logical line whose brackets do not balance (one `]` with no
matching opener). -/
def sourceLine58 : String :=
  "outInstance.result.symbolCount].append(instance.result.symbolCount)"

/-- CPython's tokenizer pairs the bracket characters of a logical line on a
stack; a closer with no matching opener, or an opener left unclosed, is a
`SyntaxError`.  This check covers `()` and `[]`, the only bracket
characters appearing on line 58 (the line holds no string literals, so no
escaping is involved). -/
def pyBracketScan : List Char → List Char → Bool
  | [], stack => stack.isEmpty
  | '(' :: rest, stack => pyBracketScan rest (')' :: stack)
  | '[' :: rest, stack => pyBracketScan rest (']' :: stack)
  | ')' :: rest, stack =>
    match stack with
    | ')' :: s => pyBracketScan rest s
    | _ => false
  | ']' :: rest, stack =>
    match stack with
    | ']' :: s => pyBracketScan rest s
    | _ => false
  | _ :: rest, stack => pyBracketScan rest stack

/-- Whether a logical line's brackets balance. -/
def bracketsBalanced (line : String) : Bool :=
  pyBracketScan line.data []

/-- The load step of the script.  CPython compiles the whole module before
executing any of it, so a line that fails the bracket check — line 58
does — makes every execution of the script raise `SyntaxError` before
argparse, the module constants or the sweep loop run.  The statement-level
definitions below therefore describe the *repaired* module (line 58 read
as its evidently intended append); every error they exhibit holds a
fortiori of the unloadable original, and any successful completion of the
script as written would in addition require this load step to succeed,
which it does not. -/
def moduleLoad : Except PyErr Unit :=
  if bracketsBalanced sourceLine58 then Except.ok ()
  else Except.error PyErr.syntaxError

/-- The names the script binds at module level (lines 7-21 and the `def`
of line 24).  `targets` is not among them: the lookup at line 68
(`for target in targets:`) raises `NameError` in the script as written
whenever the `minmaxs` loop reaches it. -/
def moduleGlobals : List String :=
  ["parser", "args", "repeats", "frameworks", "algorithm", "noises",
   "noiseLevels", "minmaxs", "queryLimit", "targetsFolder", "runnerPath",
   "javaPath", "run"]

/-- Evaluation of a global name in the script's module namespace. -/
def lookupGlobal (name : String) : Except PyErr Unit :=
  if moduleGlobals.contains name then Except.ok ()
  else Except.error (PyErr.nameError name)

/-- Python values as they appear as arguments in the script: strings and
lists of strings (the arguments given to `list.extend` on lines 32-39). -/
inductive PyObj where
  | str (s : String)
  | list (xs : List String)
  deriving Repr, DecidableEq

/-- Iterating a Python string yields its characters (as 1-character strings). -/
def strChars (s : String) : List String :=
  s.data.map (fun c => String.singleton c)

/-- `self.extend(args...)`: Python's `list.extend` takes exactly one
argument; with one iterable argument it appends that iterable's elements,
with any other number of arguments it raises `TypeError`. -/
def listExtend (self : List String) (args : List PyObj) : Except PyErr (List String) :=
  match args with
  | [PyObj.list xs] => Except.ok (self ++ xs)
  | [PyObj.str s] => Except.ok (self ++ strChars s)
  | _ => Except.error (PyErr.typeError "list.extend() takes exactly one argument")

/-- The fixed JVM compatibility flags appended unconditionally on lines 27-30. -/
def addOpensFlags : List String :=
  ["--add-opens=java.base/java.util=ALL-UNNAMED",
   "--add-opens=java.base/java.util.reflect=ALL-UNNAMED",
   "--add-opens=java.base/java.lang=ALL-UNNAMED",
   "--add-opens=java.base/java.lang.reflect=ALL-UNNAMED"]

/-- Lines 25-39 of `run`: construction of the subprocess command line.
Lines 25-31 build `[javaPath] ++ addOpensFlags` by `append` (arity one,
called correctly).  Line 32 calls `extend` with the single list
`["-jar", runnerPath]`.  Lines 33-39 each call `extend` with TWO
arguments — a one-element list and a separate value — exactly as in the
source (`command.extend(["-f"], framework)` etc.). -/
def buildCommand (javaPath runnerPath algorithm framework noise noiseLevel : String)
    (minmax : String × String) (target : String) : Except PyErr (List String) := do
  let command := [javaPath] ++ addOpensFlags
  let command ← listExtend command [PyObj.list ["-jar", runnerPath]]
  let command ← listExtend command [PyObj.list ["-f"], PyObj.str framework]
  let command ← listExtend command [PyObj.list ["-a"], PyObj.str algorithm]
  let command ← listExtend command [PyObj.list ["-min"], PyObj.str minmax.1]
  let command ← listExtend command [PyObj.list ["-max"], PyObj.str minmax.2]
  let command ← listExtend command [PyObj.list ["-n"], PyObj.str noise]
  let command ← listExtend command [PyObj.list ["-nl"], PyObj.str noiseLevel]
  let command ← listExtend command [PyObj.list ["-t"], PyObj.str target]
  return command

/-- JSON values as decoded by `json.loads`: objects, arrays, strings,
numbers, booleans and null.  (Numbers are modelled as integers; no claim
inspects a numeric value.) -/
inductive Json where
  | null
  | bool (b : Bool)
  | num (n : Int)
  | str (s : String)
  | arr (elems : List Json)
  | obj (fields : List (String × Json))

/-- The value returned by `subprocess.run(command, stdout=subprocess.PIPE)`:
the exit code and the captured standard output.  Without `check=True`
(as on line 43) a non-zero exit code is returned, not raised.  Standard
output is modelled as the already-decoded text of the later
`.decode('utf-8')`. -/
structure CompletedProcess where
  returncode : Int
  stdout : String

/-- Python `str.splitlines` for the terminators `\n`, `\r` and `\r\n`:
each terminator ends a line, and a trailing terminator does not produce an
extra empty line (`"a\n".splitlines() == ["a"]`, `"".splitlines() == []`,
`"\n".splitlines() == [""]`). -/
def splitlinesAux : List Char → List Char → List String
  | [], acc => if acc.isEmpty then [] else [String.mk acc.reverse]
  | '\r' :: '\n' :: rest, acc => String.mk acc.reverse :: splitlinesAux rest []
  | '\r' :: rest, acc => String.mk acc.reverse :: splitlinesAux rest []
  | '\n' :: rest, acc => String.mk acc.reverse :: splitlinesAux rest []
  | c :: rest, acc => splitlinesAux rest (c :: acc)

/-- Python `str.splitlines` on a string. -/
def splitlines (s : String) : List String := splitlinesAux s.data []

/-- Python `seq[-1]`: the last element; `IndexError` on an empty sequence. -/
def pyLast {α : Type} (xs : List α) : Except PyErr α :=
  match xs.getLast? with
  | some x => Except.ok x
  | none => Except.error PyErr.indexError

/-- Python `seq[0]`: the first element; `IndexError` on an empty sequence. -/
def pyFirst {α : Type} (xs : List α) : Except PyErr α :=
  match xs with
  | x :: _ => Except.ok x
  | [] => Except.error PyErr.indexError

/-- Lines 46-47 and 54: `json.loads(stdout.decode('utf-8').splitlines()[-1])`.
Exactly the final line of the captured output is handed to `json.loads`
(modelled by the parameter `loads`); an output with no lines is an
`IndexError`. -/
def parseLastLine (loads : String → Except PyErr Json) (stdout : String) :
    Except PyErr Json := do
  let lastLine ← pyLast (splitlines stdout)
  loads lastLine

/-- Attribute lookup on a value decoded by `json.loads`.  Such a value is a
dict, list, str, number, bool or None; none of these objects has an
attribute named `config`, `result`, `random`, `success`, `queryCount` or
`symbolCount` (JSON object members are dictionary items, reached by
subscription, not attributes), so every attribute lookup the script
performs on them raises `AttributeError`. -/
def jsonGetattr (_ : Json) (attr : String) : Except PyErr Json :=
  Except.error (PyErr.attributeError attr)

/-- Attribute assignment on a value decoded by `json.loads`: dicts (and the
other decoded types) do not accept new attributes, so this raises
`AttributeError` as well.  (Unreachable in the script: the attribute
lookup preceding each assignment already raises.) -/
def jsonSetattr (_ : Json) (attr : String) (_ : Json) : Except PyErr Json :=
  Except.error (PyErr.attributeError attr)

/-- `list.append` of one JSON value on another, used to model the
`...append(...)` calls of lines 55-58.  Unreachable: every enclosing
statement raises `AttributeError` at its first attribute lookup, so the
choice of a pure (non-mutating) reading has no observable consequence. -/
def jsonListAppend (dst arg : Json) : Except PyErr Json :=
  match dst with
  | Json.arr xs => Except.ok (Json.arr (xs ++ [arg]))
  | _ => Except.error (PyErr.attributeError "append")

/-- Lines 46-60 of `run`: parse the first invocation's output, blank the
per-run fields, then append every invocation's per-run fields.  Each
statement is modelled in Python evaluation order; each one raises
`AttributeError` at its first attribute lookup on the decoded JSON value
(see `jsonGetattr`), so with a decodable first output this function always
stops at line 48 with `AttributeError "config"`.  Line 58 of the source
contains a stray closing bracket (`outInstance.result.symbolCount].append`),
which in CPython is a module-level `SyntaxError` raised before anything
executes — that load failure is modelled separately by `moduleLoad`; this
function renders the statement of the repaired module, whose execution
still stops at line 48 above, so no theorem leans on the repaired reading
of line 58 for a successful outcome. -/
def aggregateResults (loads : String → Except PyErr Json)
    (results : List CompletedProcess) : Except PyErr Json := do
  let first ← pyFirst results
  let outInstance ← parseLastLine loads first.stdout
  -- line 48: outInstance.config.random = []
  let tgt ← jsonGetattr outInstance "config"
  let _ ← jsonSetattr tgt "random" (Json.arr [])
  -- line 49: outInstance.result.success = []
  let tgt ← jsonGetattr outInstance "result"
  let _ ← jsonSetattr tgt "success" (Json.arr [])
  -- line 50: outInstance.result.queryCount = []
  let tgt ← jsonGetattr outInstance "result"
  let _ ← jsonSetattr tgt "queryCount" (Json.arr [])
  -- line 51: outInstance.result.symbolCount = []
  let tgt ← jsonGetattr outInstance "result"
  let _ ← jsonSetattr tgt "symbolCount" (Json.arr [])
  -- lines 53-58
  for result in results do
    let instanceV ← parseLastLine loads result.stdout
    -- line 55: outInstance.config.random.append(instance.config.random)
    let dst ← jsonGetattr outInstance "config"
    let dst ← jsonGetattr dst "random"
    let src ← jsonGetattr instanceV "config"
    let src ← jsonGetattr src "random"
    let _ ← jsonListAppend dst src
    -- line 56: outInstance.result.success.append(instance.result.success)
    let dst ← jsonGetattr outInstance "result"
    let dst ← jsonGetattr dst "success"
    let src ← jsonGetattr instanceV "result"
    let src ← jsonGetattr src "success"
    let _ ← jsonListAppend dst src
    -- line 57: outInstance.result.queryCount.append(instance.result.queryCount)
    let dst ← jsonGetattr outInstance "result"
    let dst ← jsonGetattr dst "queryCount"
    let src ← jsonGetattr instanceV "result"
    let src ← jsonGetattr src "queryCount"
    let _ ← jsonListAppend dst src
    -- line 58 (stray bracket in source): outInstance.result.symbolCount].append(...)
    let dst ← jsonGetattr outInstance "result"
    let dst ← jsonGetattr dst "symbolCount"
    let src ← jsonGetattr instanceV "result"
    let src ← jsonGetattr src "symbolCount"
    let _ ← jsonListAppend dst src
  -- line 60
  return outInstance

/-- Lift a pure `Except` computation (no events) into the script monad. -/
def liftE {α : Type} (e : Except PyErr α) : PyM α :=
  ExceptT.mk (pure e)

/-- Module-level constants of the script (lines 12-21). -/
def repeats : Nat := 3

def frameworks : List String := ["MAT", "PAR"]

def noises : List String := ["INPUT", "OUTPUT", "MAPPING"]

def noiseLevels : List String := ["0.0", "0.1", "0.2", "0.3"]

def minmaxs : List (String × String) := []

def queryLimit : String := "1000000"

def targetsFolder : String := "path"

def runnerPath : String := ""

def javaPath : String := ""

/-- Line 43: `subprocess.run(command, stdout=subprocess.PIPE)`.  The
invocation is recorded and the completed process returned.  With no
`check=True` in the call, the exit code is NOT inspected: an abnormal
(non-zero) exit is returned like any other outcome, never raised. -/
def subprocessRun (oracle : Nat → CompletedProcess) (i : Nat)
    (command : List String) : PyM CompletedProcess := do
  emit (Event.spawn command)
  pure (oracle i)

/-- The body of `run` (lines 24-60), parameterised over the globals it
reads (`javaPath`, `runnerPath`, `algorithm`, `repeats`), over `loads`
(`json.loads`) and over the subprocess outcome `oracle` (the `i`-th
invocation of this call returns `oracle i`).  Lines 25-39 build the
command (see `buildCommand`); lines 41-44 invoke the subprocess `repeats`
times, ticking the progress bar after each; lines 46-60 aggregate (see
`aggregateResults`). -/
def run (loads : String → Except PyErr Json) (oracle : Nat → CompletedProcess)
    (repeatsN : Nat) (javaPathV runnerPathV algorithm : String)
    (framework noise noiseLevel : String) (minmax : String × String)
    (target : String) : PyM Json := do
  let command ← liftE
    (buildCommand javaPathV runnerPathV algorithm framework noise noiseLevel minmax target)
  let mut results : List CompletedProcess := []
  for i in List.range repeatsN do
    let r ← subprocessRun oracle i command
    results := results ++ [r]
    emit Event.tick
  liftE (aggregateResults loads results)

/-- A Python call to `run`: the interpreter checks the argument count
against the five declared parameters (line 24) before entering the body;
any other count is a `TypeError` at the call site. -/
def callRun (argc : Nat) (invoke : PyM Json) : PyM Json :=
  if argc = 5 then invoke
  else throw (PyErr.typeError "run() takes 5 positional arguments but 6 were given")

/-- The sweep loop (lines 63-73), parameterised over the five collections
it iterates (in the script, `frameworks`, `noises`, `noiseLevels` and
`minmaxs` are the module constants, and `targets` is a name the script
never binds — in the script as written the lookup at line 68 raises
`NameError` before any bar construction or call to `run` whenever
`minmaxs` is non-empty, see `lookupGlobal`; the parameterisation supports
exhibiting the further errors behind it and carries no successful-outcome
theorem).  Per the source: the five `for` loops nest with framework
outermost and target innermost; *inside* the innermost loop the body
computes `uniqueExperiments` as the product of the five lengths, enters a
fresh `alive_bar(uniqueExperiments)` context (modelled as `Event.barInit`),
and calls `run` with SIX arguments (`framework, noise, noiseLevel, minmax,
target, bar`, lines 72-73) against its five parameters. -/
def mainSweep (loads : String → Except PyErr Json) (oracle : Nat → CompletedProcess)
    (repeatsN : Nat) (javaPathV runnerPathV algorithm : String)
    (frameworksL noisesL noiseLevelsL : List String)
    (minmaxsL : List (String × String)) (targetsL : List String) : PyM Unit := do
  for framework in frameworksL do
    for noise in noisesL do
      for noiseLevel in noiseLevelsL do
        for minmax in minmaxsL do
          for target in targetsL do
            let uniqueExperiments := frameworksL.length * noisesL.length *
              noiseLevelsL.length * minmaxsL.length * targetsL.length
            emit (Event.barInit uniqueExperiments)
            let _ ← callRun 6 (run loads oracle repeatsN javaPathV runnerPathV
              algorithm framework noise noiseLevel minmax target)

/-- Lines 7-10: `argparse` with a single positional string argument
`algorithm`.  A lone non-option token is accepted and returned verbatim —
the parser declares no `choices=` restriction, so nothing checks the value
against the documented enumeration LSTAR/KV/TTT.  Any other command line
(zero or two-plus positional tokens, or a token beginning with `-`, which
argparse lexes as an option) makes argparse report an error and raise
`SystemExit`. -/
def parseArgs (argv : List String) : Except PyErr String :=
  match argv with
  | [a] =>
    match a.data with
    | '-' :: _ => Except.error PyErr.systemExit
    | _ => Except.ok a
  | _ => Except.error PyErr.systemExit

/-- A stand-in for `json.loads` usable in concrete evaluations. -/
def trivialLoads : String → Except PyErr Json := fun s => Except.ok (Json.str s)

/-- A stand-in subprocess environment usable in concrete evaluations. -/
def constOracle : Nat → CompletedProcess := fun _ => { returncode := 0, stdout := "" }

/-- A subprocess environment whose process exits abnormally (exit code 1)
while still printing one final result line. -/
def abnormalOracle : Nat → CompletedProcess :=
  fun _ => { returncode := 1, stdout := "result line" }

/-- Shared fact: command construction (lines 25-39) raises `TypeError` for
every argument tuple, at the first two-argument `extend` (line 33). -/
theorem buildCommand_typeError (j r a f n nl : String) (mm : String × String) (t : String) :
    buildCommand j r a f n nl mm t
      = Except.error (PyErr.typeError "list.extend() takes exactly one argument") := rfl

/-- Shared fact: for every argument tuple, `run` stops with the line-33
`TypeError` before recording any event — in particular before any
subprocess invocation or progress tick. -/
theorem run_always_typeError (lo : String → Except PyErr Json) (orc : Nat → CompletedProcess)
    (rep : Nat) (j r a f n nl : String) (mm : String × String) (t : String) :
    runEvents (run lo orc rep j r a f n nl mm t)
      = (Except.error (PyErr.typeError "list.extend() takes exactly one argument"), []) := rfl

/-- Shared fact: a six-argument call to the five-parameter `run` is a
`TypeError` at the call site, whatever the body would have done. -/
theorem callRun6_typeError (invoke : PyM Json) :
    callRun 6 invoke
      = throw (PyErr.typeError "run() takes 5 positional arguments but 6 were given") := rfl

/-- Shared fact: on any configuration with all five collections non-empty,
the sweep's very first iteration constructs one progress indicator and then
aborts the whole sweep with the call-site `TypeError`; the final trace holds
that single `barInit` and nothing else. -/
theorem mainSweep_cons_typeError (lo : String → Except PyErr Json)
    (orc : Nat → CompletedProcess) (rep : Nat) (j r a f n nl : String)
    (mm : String × String) (t : String) (fs ns nls : List String)
    (mms : List (String × String)) (ts : List String) :
    runEvents (mainSweep lo orc rep j r a (f::fs) (n::ns) (nl::nls) (mm::mms) (t::ts))
      = (Except.error (PyErr.typeError "run() takes 5 positional arguments but 6 were given"),
         [Event.barInit ((f::fs).length * (n::ns).length * (nl::nls).length *
           (mm::mms).length * (t::ts).length)]) := rfl

/-- C1: the claim states that for every sweep point processed with
`repeats = R` the AggregateResult's per-run fields (`random`, `success`,
`queryCount`, `symbolCount`) are ordered sequences of length exactly `R`
in subprocess-invocation order.  The code contradicts it: at the sweep
point (MAT, INPUT, 0.0, (1,5), t1) with the script's own constants
(`repeats = 3`, `javaPath`, `runnerPath`), `run` raises `TypeError` at the
two-argument `extend` of line 33 before its first subprocess invocation,
so no AggregateResult — and no per-run sequence — is ever produced. -/
theorem claim_C1_no_aggregate :
    runEvents (run trivialLoads constOracle repeats javaPath runnerPath
        "LSTAR" "MAT" "INPUT" "0.0" ("1", "5") "t1")
      = (Except.error (PyErr.typeError "list.extend() takes exactly one argument"), []) := rfl

/-- C2: the claim states that every non-per-run field of the
AggregateResult equals the corresponding field of the first invocation's
parsed result, unmodified.  The code contradicts it: even on a well-formed
results list (three invocations whose outputs decode fine), the
aggregation of lines 46-60 aborts at line 48 with
`AttributeError "config"` — `json.loads` returns a dict, which has no
`config` attribute — so no field of any first result is ever retained. -/
theorem claim_C2_no_field_retention :
    aggregateResults trivialLoads
        [⟨0, "out1"⟩, ⟨0, "out2"⟩, ⟨0, "out3"⟩]
      = Except.error (PyErr.attributeError "config") := rfl

/-- C3: for every captured standard output, the parsed result is obtained
by taking exactly the final line of the output and handing it to
`json.loads` — hence earlier lines have no effect (the result is a
function of the final line alone). -/
theorem claim_C3_parse_final_line (loads : String → Except PyErr Json)
    (stdout lastLine : String)
    (h : (splitlines stdout).getLast? = some lastLine) :
    parseLastLine loads stdout = loads lastLine := by
  unfold parseLastLine pyLast
  rw [h]
  rfl

/-- Witness for C3 at a concrete three-line output whose final line is
`final`: the two diagnostic lines before it do not affect the result. -/
theorem claim_C3_witness :
    parseLastLine trivialLoads "diagnostic one\ndiagnostic two\nfinal"
      = trivialLoads "final" :=
  claim_C3_parse_final_line trivialLoads "diagnostic one\ndiagnostic two\nfinal" "final" rfl

/-- C4: the claim states the command line constructed by `run` is the
runtime executable, the fixed compatibility flags, `-jar` and the artifact
path, then the seven flag/value pairs.  The code contradicts it: at the
sweep point (PAR, OUTPUT, 0.1, (2,6), t2) with the script's constants,
command construction raises `TypeError` at line 33 (the first flag/value
pair is passed to `list.extend` as two arguments), so no command line of
any shape is ever completed. -/
theorem claim_C4_command_not_built :
    buildCommand javaPath runnerPath "KV" "PAR" "OUTPUT" "0.1" ("2", "6") "t2"
      = Except.error (PyErr.typeError "list.extend() takes exactly one argument") := rfl

/-- C5: the claim states a full sweep on non-empty sets performs exactly
R × |frameworks| × |noiseKinds| × |noiseLevels| × |sizeBounds| × |targets|
invocations over the Cartesian product.  The code contradicts it: on the
non-empty configuration (frameworks = [MAT, PAR], one noise kind, one
level, one bound, one target; R = 3), for which the claim demands 6
invocations, the sweep's first iteration calls the five-parameter `run`
with six arguments, raises `TypeError`, and aborts: the whole sweep
performs zero subprocess invocations. -/
theorem claim_C5_zero_invocations :
    runEvents (mainSweep trivialLoads constOracle repeats javaPath runnerPath "TTT"
        ["MAT", "PAR"] ["INPUT"] ["0.0"] [("1", "3")] ["tA"])
      = (Except.error (PyErr.typeError "run() takes 5 positional arguments but 6 were given"),
         [Event.barInit 2])
    ∧ spawnCount (runEvents (mainSweep trivialLoads constOracle repeats javaPath runnerPath "TTT"
        ["MAT", "PAR"] ["INPUT"] ["0.0"] [("1", "3")] ["tA"])).2 = 0 := ⟨rfl, rfl⟩

/-- C6: the claim states a full sweep initializes a single progress
indicator before iterating and that the indicator's final tick count is
the sweep-point count times R.  The code contradicts it: the
`alive_bar` context is entered *inside* the innermost loop (lines 69-71),
and on the one-sweep-point configuration below (for which the claim
demands 1 × 3 = 3 ticks) the first iteration constructs the bar and then
aborts with the call-site `TypeError`, so the trace carries one in-loop
`barInit` and zero ticks. -/
theorem claim_C6_no_ticks :
    runEvents (mainSweep trivialLoads constOracle repeats javaPath runnerPath "LSTAR"
        ["MAT"] ["MAPPING"] ["0.2"] [("1", "4")] ["tB"])
      = (Except.error (PyErr.typeError "run() takes 5 positional arguments but 6 were given"),
         [Event.barInit 1])
    ∧ tickCount (runEvents (mainSweep trivialLoads constOracle repeats javaPath runnerPath "LSTAR"
        ["MAT"] ["MAPPING"] ["0.2"] [("1", "4")] ["tB"])).2 = 0
    ∧ barInitCount (runEvents (mainSweep trivialLoads constOracle repeats javaPath runnerPath "LSTAR"
        ["MAT"] ["MAPPING"] ["0.2"] [("1", "4")] ["tB"])).2 = 1 := ⟨rfl, rfl, rfl⟩

/-- C7 counterexample: at the concrete invocation below the external
process exits abnormally (exit code 1), yet the invocation step of line 43
completes without error and returns the process outcome — `subprocess.run`
is called without `check=True`, so an abnormal exit raises nothing — and
the captured final line even parses; and at the concrete sweep point below
the processing does fail, but with the line-33 `TypeError` raised before
the first invocation, not under any condition the claim enumerates.  So
the claim as stated — failure whenever the process exits abnormally, or
output is empty or non-JSON, or a field is missing — is false of the
code. -/
theorem claim_C7_counterexample :
    runEvents (subprocessRun abnormalOracle 0 ["cmd"])
      = (Except.ok { returncode := 1, stdout := "result line" }, [Event.spawn ["cmd"]])
    ∧ parseLastLine trivialLoads "result line" = Except.ok (Json.str "result line")
    ∧ runEvents (run trivialLoads abnormalOracle repeats javaPath runnerPath
        "LSTAR" "MAT" "INPUT" "0.0" ("1", "6") "t7")
      = (Except.error (PyErr.typeError "list.extend() takes exactly one argument"), []) :=
  ⟨rfl, rfl, rfl⟩

/-- C7 (amended): processing a sweep point does fail with a propagated,
uncaught error that terminates the whole sweep rather than returning a
partial or corrupt aggregate — but not under the conditions the claim
enumerates: for every argument tuple, `run` aborts with a `TypeError`
during command construction before its first subprocess invocation, so
abnormal exit, empty output, invalid JSON and missing fields are never
reached; on any configuration with all five collections non-empty, the
sweep terminates with the uncaught call-site `TypeError`; and an abnormal
process exit alone is not a failure condition — the invocation step
returns the completed process unchecked, whatever its exit code. -/
theorem claim_C7_amended_fail_fast (lo : String → Except PyErr Json)
    (orc : Nat → CompletedProcess) (rep : Nat) (j r a f n nl : String)
    (mm : String × String) (t : String) (fs ns nls : List String)
    (mms : List (String × String)) (ts : List String) :
    runEvents (run lo orc rep j r a f n nl mm t)
      = (Except.error (PyErr.typeError "list.extend() takes exactly one argument"), [])
    ∧ (runEvents (mainSweep lo orc rep j r a (f::fs) (n::ns) (nl::nls) (mm::mms) (t::ts))).1
      = Except.error (PyErr.typeError "run() takes 5 positional arguments but 6 were given")
    ∧ (∀ i cmd, (runEvents (subprocessRun orc i cmd)).1 = Except.ok (orc i)) :=
  ⟨rfl, rfl, fun _ _ => rfl⟩

/-- C8: the claim states that with the size-bounds or the targets
collection empty, the sweep performs zero subprocess invocations and
completes without error.  Zero invocations indeed occur, but no execution
of the script as written completes without error: line 58's stray bracket
fails the tokenizer's bracket check, so CPython's compilation of the
module raises `SyntaxError` before any statement executes — on every
input, the script's own `minmaxs = []` configuration included; and the
empty-targets case additionally turns on the name `targets`, which the
script never binds, a `NameError` at line 68 once evaluated. -/
theorem claim_C8_load_fails :
    moduleLoad = Except.error PyErr.syntaxError
    ∧ bracketsBalanced sourceLine58 = false
    ∧ lookupGlobal "targets" = Except.error (PyErr.nameError "targets") :=
  ⟨rfl, rfl, rfl⟩

/-- C9: the claim states the CLI accepts exactly one positional string,
performs no validation on it, and passes that exact string through
verbatim as the value of the `-a` flag in every subprocess command line.
The first half holds — `"NOT_IN_ENUM"` is outside LSTAR/KV/TTT and is
accepted verbatim — but the pass-through does not: command construction
raises `TypeError` at the `-f` pair of line 33, before the `-a` pair of
line 34 is ever appended, so the algorithm string reaches no subprocess
command line. -/
theorem claim_C9_algorithm_not_passed :
    parseArgs ["NOT_IN_ENUM"] = Except.ok "NOT_IN_ENUM"
    ∧ buildCommand javaPath runnerPath "NOT_IN_ENUM" "MAT" "INPUT" "0.0" ("1", "2") "t3"
      = Except.error (PyErr.typeError "list.extend() takes exactly one argument") := ⟨rfl, rfl⟩

/-- C10: for every argument tuple, `run` raises a `TypeError` during
command-line construction (the two-argument `extend` of line 33) before
its first subprocess invocation, recording no event; independently, the
six-argument call of lines 72-73 against the five-parameter `run` is a
`TypeError` at the call site; consequently on any configuration with all
five collections non-empty the sweep aborts with that call-site error,
having spawned no subprocess and returned no AggregateResult. -/
theorem claim_C10_script_never_spawns (lo : String → Except PyErr Json)
    (orc : Nat → CompletedProcess) (rep : Nat) (j r a f n nl : String)
    (mm : String × String) (t : String) (fs ns nls : List String)
    (mms : List (String × String)) (ts : List String) :
    runEvents (run lo orc rep j r a f n nl mm t)
      = (Except.error (PyErr.typeError "list.extend() takes exactly one argument"), [])
    ∧ (runEvents (callRun 6 (run lo orc rep j r a f n nl mm t))).1
      = Except.error (PyErr.typeError "run() takes 5 positional arguments but 6 were given")
    ∧ runEvents (mainSweep lo orc rep j r a (f::fs) (n::ns) (nl::nls) (mm::mms) (t::ts))
      = (Except.error (PyErr.typeError "run() takes 5 positional arguments but 6 were given"),
         [Event.barInit ((f::fs).length * (n::ns).length * (nl::nls).length *
           (mm::mms).length * (t::ts).length)])
    ∧ spawnCount (runEvents (mainSweep lo orc rep j r a
        (f::fs) (n::ns) (nl::nls) (mm::mms) (t::ts))).2 = 0 :=
  ⟨rfl, rfl, rfl, rfl⟩
